import Mathlib

/-!
Shallow embedding of the worker-comfyui repository's job-orchestration core:
`src/service.py` (ComfyUIService), `src/main.py` (HTTP router) and
`src/gcp_migration_ata/main.py` (the parallel FastAPI implementation).

Python values decoded from JSON are modelled by `JVal`; Python exceptions are
modelled with `Except String` (the string standing for `str(e)`; exact
exception messages are not load-bearing); network interactions are resolved by
explicit oracle records (`Env`, `Gcp.GEnv`) and every externally visible
operation is recorded in an effect trace (`Effect`).
-/

namespace WorkerComfy

/-- JSON-decoded Python values (None / bool / int / str / list / dict). -/
inductive JVal where
  | null
  | bool (b : Bool)
  | num (n : Int)
  | str (s : String)
  | arr (xs : List JVal)
  | obj (kvs : List (String × JVal))
deriving Repr, Inhabited

mutual
/-- Decidable equality on `JVal` (the derive handler does not support the
nested `List` occurrences, so it is spelled out). -/
def jvalDecEq : (a b : JVal) → Decidable (a = b)
  | .null, .null => .isTrue rfl
  | .bool a, .bool b =>
      if h : a = b then .isTrue (by rw [h]) else .isFalse (fun he => h (JVal.bool.inj he))
  | .num a, .num b =>
      if h : a = b then .isTrue (by rw [h]) else .isFalse (fun he => h (JVal.num.inj he))
  | .str a, .str b =>
      if h : a = b then .isTrue (by rw [h]) else .isFalse (fun he => h (JVal.str.inj he))
  | .arr a, .arr b =>
      match jvalListDecEq a b with
      | .isTrue h => .isTrue (by rw [h])
      | .isFalse h => .isFalse (fun he => h (JVal.arr.inj he))
  | .obj a, .obj b =>
      match jvalKvsDecEq a b with
      | .isTrue h => .isTrue (by rw [h])
      | .isFalse h => .isFalse (fun he => h (JVal.obj.inj he))
  | .null, .bool _ => .isFalse (fun h => JVal.noConfusion h)
  | .null, .num _ => .isFalse (fun h => JVal.noConfusion h)
  | .null, .str _ => .isFalse (fun h => JVal.noConfusion h)
  | .null, .arr _ => .isFalse (fun h => JVal.noConfusion h)
  | .null, .obj _ => .isFalse (fun h => JVal.noConfusion h)
  | .bool _, .null => .isFalse (fun h => JVal.noConfusion h)
  | .bool _, .num _ => .isFalse (fun h => JVal.noConfusion h)
  | .bool _, .str _ => .isFalse (fun h => JVal.noConfusion h)
  | .bool _, .arr _ => .isFalse (fun h => JVal.noConfusion h)
  | .bool _, .obj _ => .isFalse (fun h => JVal.noConfusion h)
  | .num _, .null => .isFalse (fun h => JVal.noConfusion h)
  | .num _, .bool _ => .isFalse (fun h => JVal.noConfusion h)
  | .num _, .str _ => .isFalse (fun h => JVal.noConfusion h)
  | .num _, .arr _ => .isFalse (fun h => JVal.noConfusion h)
  | .num _, .obj _ => .isFalse (fun h => JVal.noConfusion h)
  | .str _, .null => .isFalse (fun h => JVal.noConfusion h)
  | .str _, .bool _ => .isFalse (fun h => JVal.noConfusion h)
  | .str _, .num _ => .isFalse (fun h => JVal.noConfusion h)
  | .str _, .arr _ => .isFalse (fun h => JVal.noConfusion h)
  | .str _, .obj _ => .isFalse (fun h => JVal.noConfusion h)
  | .arr _, .null => .isFalse (fun h => JVal.noConfusion h)
  | .arr _, .bool _ => .isFalse (fun h => JVal.noConfusion h)
  | .arr _, .num _ => .isFalse (fun h => JVal.noConfusion h)
  | .arr _, .str _ => .isFalse (fun h => JVal.noConfusion h)
  | .arr _, .obj _ => .isFalse (fun h => JVal.noConfusion h)
  | .obj _, .null => .isFalse (fun h => JVal.noConfusion h)
  | .obj _, .bool _ => .isFalse (fun h => JVal.noConfusion h)
  | .obj _, .num _ => .isFalse (fun h => JVal.noConfusion h)
  | .obj _, .str _ => .isFalse (fun h => JVal.noConfusion h)
  | .obj _, .arr _ => .isFalse (fun h => JVal.noConfusion h)

/-- Decidable equality on lists of `JVal`. -/
def jvalListDecEq : (a b : List JVal) → Decidable (a = b)
  | [], [] => .isTrue rfl
  | [], _ :: _ => .isFalse (fun h => List.noConfusion h)
  | _ :: _, [] => .isFalse (fun h => List.noConfusion h)
  | x :: xs, y :: ys =>
      match jvalDecEq x y with
      | .isTrue hx =>
          match jvalListDecEq xs ys with
          | .isTrue ht => .isTrue (by rw [hx, ht])
          | .isFalse ht => .isFalse (fun h => ht (List.tail_eq_of_cons_eq h))
      | .isFalse hx => .isFalse (fun h => hx (List.head_eq_of_cons_eq h))

/-- Decidable equality on key/value lists. -/
def jvalKvsDecEq : (a b : List (String × JVal)) → Decidable (a = b)
  | [], [] => .isTrue rfl
  | [], _ :: _ => .isFalse (fun h => List.noConfusion h)
  | _ :: _, [] => .isFalse (fun h => List.noConfusion h)
  | (k1, v1) :: xs, (k2, v2) :: ys =>
      if hk : k1 = k2 then
        match jvalDecEq v1 v2 with
        | .isTrue hv =>
            match jvalKvsDecEq xs ys with
            | .isTrue ht => .isTrue (by rw [hk, hv, ht])
            | .isFalse ht => .isFalse (fun h => ht (List.tail_eq_of_cons_eq h))
        | .isFalse hv =>
            .isFalse (fun h => hv (congrArg Prod.snd (List.head_eq_of_cons_eq h)))
      else .isFalse (fun h => hk (congrArg Prod.fst (List.head_eq_of_cons_eq h)))
end

instance : DecidableEq JVal := jvalDecEq

/-- First-match key lookup in a dict's key/value list (Python dict access;
parsed-JSON dicts have unique keys). -/
def lookupKvs : List (String × JVal) → String → Option JVal
  | [], _ => none
  | (k, v) :: rest, key => if k = key then some v else lookupKvs rest key

/-- Python `x[key]` with a string key; `none` models the exception
(`KeyError` for a dict without the key, `TypeError` for non-dict values). -/
def jLookup : JVal → String → Option JVal
  | .obj kvs, k => lookupKvs kvs k
  | _, _ => none

/-- Substring test on character lists (Python `needle in haystack` for
strings). -/
def charsContains (needle : List Char) : List Char → Bool
  | [] => needle.isEmpty
  | c :: rest => needle.isPrefixOf (c :: rest) || charsContains needle rest

/-- Python `key in x` for a string-literal key; `none` models `TypeError`
(membership test on a non-container). For a dict it is key membership, for a
list element membership, for a string a substring test. -/
def jContainsStr : JVal → String → Option Bool
  | .obj kvs, k => some (lookupKvs kvs k).isSome
  | .arr xs, k => some (xs.contains (.str k))
  | .str s, k => some (charsContains k.data s.data)
  | _, _ => none

/-- Python `v in x` where `v` is itself a decoded JSON value; `none` models
`TypeError` (unhashable dict/list key, membership on a non-container, or a
non-string needle for a string haystack). Parsed-JSON dict keys are always
strings, so any hashable non-string key gives `False`. -/
def jContainsVal : JVal → JVal → Option Bool
  | .obj kvs, .str s => some (lookupKvs kvs s).isSome
  | .obj _, .num _ => some false
  | .obj _, .bool _ => some false
  | .obj _, .null => some false
  | .obj _, _ => none
  | .arr xs, v => some (xs.contains v)
  | .str s, .str p => some (charsContains p.data s.data)
  | .str _, _ => none
  | _, _ => none

/-- Python `x[v]` with a decoded-JSON subscript; `none` models the exception
(`TypeError`/`KeyError`/`IndexError`). Lists support Python's signed
indexing. -/
def jSubscript : JVal → JVal → Option JVal
  | .obj kvs, .str s => lookupKvs kvs s
  | .arr xs, .num n =>
      if 0 ≤ n ∧ n < (xs.length : Int) then xs.get? n.toNat
      else if -(xs.length : Int) ≤ n ∧ n < 0 then xs.get? ((xs.length : Int) + n).toNat
      else none
  | _, _ => none

mutual
/-- Python `repr` of a decoded JSON value (as interpolated by an f-string for
non-string values); string-escaping subtleties are ignored. -/
def pyRepr : JVal → String
  | .null => "None"
  | .bool true => "True"
  | .bool false => "False"
  | .num n => toString n
  | .str s => "'" ++ s ++ "'"
  | .arr xs => "[" ++ pyReprList xs ++ "]"
  | .obj kvs => "\x7b" ++ pyReprObj kvs ++ "\x7d"

/-- `repr` of a list's elements, comma-separated. -/
def pyReprList : List JVal → String
  | [] => ""
  | [x] => pyRepr x
  | x :: rest => pyRepr x ++ ", " ++ pyReprList rest

/-- `repr` of a dict's items, comma-separated. -/
def pyReprObj : List (String × JVal) → String
  | [] => ""
  | [(k, v)] => "'" ++ k ++ "': " ++ pyRepr v
  | (k, v) :: rest => "'" ++ k ++ "': " ++ pyRepr v ++ ", " ++ pyReprObj rest
end

/-- Python `str` of a decoded JSON value (as interpolated by an f-string). -/
def pyStr : JVal → String
  | .str s => s
  | v => pyRepr v

/-- The `{"error": e}` records returned throughout `service.py`. -/
def errObj (e : String) : JVal := .obj [("error", .str e)]

/-- Externally visible operations, recorded in order of occurrence. -/
inductive Effect where
  | probe
  | uploadImage (name : JVal)
  | submitWorkflow
  | wsConnect
  | sleep (seconds : Nat)
  | wsClose
  | fetchHistory
  | fetchImage (filename : JVal)
deriving Repr, DecidableEq

/-! ## `service.py`: ComfyUIService -/

/-- `WEBSOCKET_RECONNECT_ATTEMPTS` — `int(os.environ.get(..., 5))`; the
documented default. -/
def WEBSOCKET_RECONNECT_ATTEMPTS : Nat := 5

/-- `WEBSOCKET_RECONNECT_DELAY_S` — `int(os.environ.get(..., 3))`; the
documented default. -/
def WEBSOCKET_RECONNECT_DELAY_S : Nat := 3

/-- `ComfyUIService.validate_input`, image-list phase: first error among the
indexed per-image checks (`isinstance(image, dict)` and presence of the
`name`/`image` keys), else `none`. -/
def validateImages : List JVal → Nat → Option String
  | [], _ => none
  | .obj kvs :: rest, i =>
      if (lookupKvs kvs "name").isSome ∧ (lookupKvs kvs "image").isSome then
        validateImages rest (i + 1)
      else some ("Image " ++ toString i ++ " must have 'name' and 'image' fields")
  | _ :: _, i => some ("Image " ++ toString i ++ " must be a dictionary")

/-- `ComfyUIService.validate_input`: returns `(validated_input, error)`; on any
failure the first component is the empty dict, mirroring `return {}, "..."`.
`JVal.null` models a `None` job input. -/
def validate_input (job_input : JVal) : JVal × Option String :=
  if job_input = JVal.null then (.obj [], some "Please provide input")
  else
    match job_input with
    | .obj kvs =>
        match lookupKvs kvs "workflow" with
        | none => (.obj [], some "Missing 'workflow' parameter")
        | some workflow =>
            match workflow with
            | .obj _ =>
                match lookupKvs kvs "images" with
                | none => (job_input, none)
                | some imagesV =>
                    match imagesV with
                    | .arr images =>
                        match validateImages images 0 with
                        | some e => (.obj [], some e)
                        | none => (job_input, none)
                    | _ => (.obj [], some "'images' must be a list")
            | _ => (.obj [], some "'workflow' must be a dictionary")
    | _ => (.obj [], some "Input must be a dictionary")

/-- Oracle outcome for one HTTP exchange: a raised exception, or a response
with status, text body and optionally JSON-decodable body (`none` meaning
`response.json()` raises). -/
inductive HttpOutcome where
  | exc (e : String)
  | resp (status : Nat) (text : String) (body : Option JVal)
deriving Repr

/-- `ComfyUIService.check_server`: up to `fuel` GET probes (oracle `resp i` is
the status code of attempt `i`, `none` a raised exception, both non-200
outcomes retried); true as soon as one probe returns 200. The 50 ms
inter-attempt sleeps are not recorded. -/
def check_server (resp : Nat → Option Nat) : Nat → Nat → Bool × List Effect
  | 0, _ => (false, [])
  | fuel + 1, i =>
      match resp i with
      | some 200 => (true, [.probe])
      | _ =>
          let r := check_server resp fuel (i + 1)
          (r.1, .probe :: r.2)

/-- Oracle outcome for one asset upload in `ComfyUIService.upload_images`:
`decodeFail` models `base64.b64decode` raising (before any network call),
`netExc` models `requests.post` raising, `resp` an HTTP response whose body
decodes to `body` (`none`: `response.json()` raises). -/
inductive UploadStep where
  | decodeFail (e : String)
  | netExc (e : String)
  | resp (status : Nat) (text : String) (body : Option JVal)
deriving Repr

/-- The per-asset error record appended by `upload_images`. -/
def errorUploadRec (name : JVal) (e : String) : JVal :=
  .obj [("name", name), ("status", .str "error"), ("error", .str e)]

/-- The per-asset success record appended by `upload_images`. -/
def successUploadRec (name : JVal) (result : JVal) : JVal :=
  .obj [("name", name), ("status", .str "success"), ("result", result)]

/-- The decode-and-POST tail of one `upload_images` iteration (after the
data-URI handling): `decodeFail` records an error with no network effect,
otherwise the POST is attempted and its outcome recorded (200 with a JSON
body succeeds, anything else is recorded as a per-asset error). -/
def uploadHttp (step : UploadStep) (nameV : JVal) : JVal × List Effect :=
  match step with
  | .decodeFail e => (errorUploadRec nameV e, [])
  | .netExc e => (errorUploadRec nameV e, [.uploadImage nameV])
  | .resp status text body =>
      if status = 200 then
        match body with
        | some result => (successUploadRec nameV result, [.uploadImage nameV])
        | none => (errorUploadRec nameV "JSONDecodeError", [.uploadImage nameV])
      else
        (errorUploadRec nameV ("HTTP " ++ toString status ++ ": " ++ text),
         [.uploadImage nameV])

/-- One iteration of the `upload_images` loop on a dict-shaped asset: the
appended outcome record, plus the upload attempt's effect when the HTTP POST
is reached. Mirrors the data-URI prefix stripping (`split(',')[1]` raising
`IndexError` when the prefix is present but no comma follows) and the
`except` fallback naming. -/
def uploadOne (step : UploadStep) (kvs : List (String × JVal)) : JVal × List Effect :=
  match lookupKvs kvs "name" with
  | none => (errorUploadRec (.str "unknown") "KeyError: 'name'", [])
  | some nameV =>
      match lookupKvs kvs "image" with
      | none => (errorUploadRec nameV "KeyError: 'image'", [])
      | some (.str payload) =>
          if payload.startsWith "data:image/" then
            match (payload.splitOn ",").get? 1 with
            | none => (errorUploadRec nameV "IndexError: list index out of range", [])
            | some _ => uploadHttp step nameV
          else uploadHttp step nameV
      | some _ => (errorUploadRec nameV "AttributeError: startswith", [])

/-- The `for image_data in images` loop of `upload_images`: per-asset failures
are recorded and the loop continues; only a non-dict element escapes the
per-asset `try` (its `except` handler calls `.get` on the non-dict and the
resulting exception propagates, `.error` here), stopping the loop. -/
def uploadAll (steps : Nat → UploadStep) (i : Nat) :
    List JVal → Except String (List JVal) × List Effect
  | [] => (.ok [], [])
  | .obj kvs :: rest =>
      let one := uploadOne (steps i) kvs
      match uploadAll steps (i + 1) rest with
      | (.ok rs, t2) => (.ok (one.1 :: rs), one.2 ++ t2)
      | (.error e, t2) => (.error e, one.2 ++ t2)
  | _ :: _ => (.error "AttributeError: 'get'", [])

/-- `ComfyUIService.upload_images`: empty list short-circuits to success;
otherwise all assets are processed, then the aggregate is an error record
exactly when some per-asset record has error status. -/
def upload_images (steps : Nat → UploadStep) (images : List JVal) :
    Except String JVal × List Effect :=
  if images = [] then
    (.ok (.obj [("status", .str "success"), ("message", .str "No images to upload")]), [])
  else
    match uploadAll steps 0 images with
    | (.error e, t) => (.error e, t)
    | (.ok rs, t) =>
        let failed := rs.filter fun r => decide (jLookup r "status" = some (.str "error"))
        if failed.length ≠ 0 then
          (.ok (.obj [("status", .str "error"),
                      ("message", .str (toString failed.length ++ " image(s) failed to upload")),
                      ("results", .arr rs)]), t)
        else
          (.ok (.obj [("status", .str "success"),
                      ("message", .str ("Successfully uploaded " ++ toString rs.length
                        ++ " image(s)")),
                      ("results", .arr rs)]), t)

/-- `ComfyUIService.queue_workflow`: 200 with JSON body succeeds; a non-200
response raises inside the `try`, is re-caught by the generic handler and
re-wrapped (hence the doubled prefix); a network exception is wrapped once. -/
def queue_workflow (q : HttpOutcome) : Except String JVal × List Effect :=
  match q with
  | .exc e => (.error ("Failed to queue workflow: Network error: " ++ e), [.submitWorkflow])
  | .resp status text body =>
      if status = 200 then
        match body with
        | some v => (.ok v, [.submitWorkflow])
        | none => (.error "Failed to queue workflow: JSONDecodeError", [.submitWorkflow])
      else
        (.error ("Failed to queue workflow: Failed to queue workflow: HTTP "
          ++ toString status ++ ": " ++ text), [.submitWorkflow])

/-- `ComfyUIService.get_history`: never raises; non-200 and exceptions are
folded into `{"error": ...}` records, a 200 returns the decoded body. -/
def get_history (h : HttpOutcome) : JVal × List Effect :=
  match h with
  | .exc e => (errObj ("Failed to get history: " ++ e), [.fetchHistory])
  | .resp status _ body =>
      if status = 200 then
        match body with
        | some v => (v, [.fetchHistory])
        | none => (errObj "Failed to get history: JSONDecodeError", [.fetchHistory])
      else (errObj ("Failed to get history: HTTP " ++ toString status), [.fetchHistory])

/-- One receive on the monitoring websocket, as seen by `process_job`'s loop:
a JSON-decodable text message, a falsy (empty) message, a message failing
`json.loads`, a `WebSocketConnectionClosedException`, or any other receive
exception. -/
inductive WsEvent where
  | msg (v : JVal)
  | empty
  | parseFail
  | closed
  | recvErr (e : String)
deriving Repr

/-- How the monitoring loop reacts to one decoded message. `fault` stands for
any exception raised while inspecting the message (missing key / non-dict
subscript), which the loop's generic handler turns into a `break`. -/
inductive MsgAction where
  | done
  | failJob (d : JVal)
  | skip
  | fault
deriving Repr, DecidableEq

/-- Message inspection in `process_job`'s monitoring loop, including the
short-circuit of `executing_data["node"] is None and
executing_data["prompt_id"] == prompt_id` (the second subscript is not
evaluated when the node is non-null). Note the `execution_error` branch does
not compare the notification's prompt_id with the monitored one. -/
def interpretMsg (pid : JVal) (v : JVal) : MsgAction :=
  match jLookup v "type" with
  | none => .fault
  | some ty =>
      if ty = .str "executing" then
        match jLookup v "data" with
        | none => .fault
        | some ed =>
            match jLookup ed "node" with
            | none => .fault
            | some node =>
                if node = .null then
                  match jLookup ed "prompt_id" with
                  | none => .fault
                  | some q => if q = pid then .done else .skip
                else .skip
      else if ty = .str "execution_error" then
        match jLookup v "data" with
        | none => .fault
        | some d => .failJob d
      else .skip

/-- Exhaustion message of `_attempt_websocket_reconnect`. -/
def exhaustMsg (maxA : Nat) (lastErr : String) : String :=
  "Failed to reconnect after " ++ toString maxA ++ " attempts. Last error: " ++ lastErr

/-- The `for attempt in range(1, max_attempts + 1)` loop of
`_attempt_websocket_reconnect`: each attempt sleeps `delayS` then connects
(oracle `conn attempt`); the first success returns, a failure on the last
attempt raises the exhaustion error carrying the last underlying error, and
an empty range falls through to the unreachable-end raise. -/
def reconnectLoop (conn : Nat → Except String Unit) (maxA delayS : Nat) (attempt : Nat) :
    Except String Unit × List Effect :=
  if _h : maxA < attempt then (.error "Unexpected end of reconnection loop", [])
  else
    match conn attempt with
    | .ok _ => (.ok (), [.sleep delayS, .wsConnect])
    | .error e =>
        if attempt = maxA then (.error (exhaustMsg maxA e), [.sleep delayS, .wsConnect])
        else
          let r := reconnectLoop conn maxA delayS (attempt + 1)
          (r.1, .sleep delayS :: .wsConnect :: r.2)
termination_by maxA + 1 - attempt
decreasing_by omega

/-- `ComfyUIService._attempt_websocket_reconnect` (attempts are numbered from
1, as in the source). -/
def attempt_websocket_reconnect (conn : Nat → Except String Unit) (maxA delayS : Nat) :
    Except String Unit × List Effect :=
  reconnectLoop conn maxA delayS 1

/-- Terminal outcome of `process_job`'s monitoring loop: the completion
`break`, the generic-exception `break`, the `execution_error` early return,
the reconnection-exhaustion exception, or blocking forever on a stream that
never yields another event. -/
inductive LoopOutcome where
  | completed
  | broke
  | execError (d : JVal)
  | reconnectFailed (e : String)
  | stuck
deriving Repr, DecidableEq

/-- The `while True` monitoring loop of `process_job`. `reconn d a` is the
oracle outcome of attempt `a` of the reconnection following disconnect number
`d`. An exhausted event list models a stream that never delivers another
event (the Python loop would block in `recv` forever). -/
def monitorLoop (pid : JVal) (maxA delayS : Nat) (reconn : Nat → Nat → Except String Unit)
    (nDisc : Nat) : List WsEvent → LoopOutcome × List Effect
  | [] => (.stuck, [])
  | .msg v :: rest =>
      match interpretMsg pid v with
      | .done => (.completed, [])
      | .failJob d => (.execError d, [])
      | .fault => (.broke, [])
      | .skip => monitorLoop pid maxA delayS reconn nDisc rest
  | .empty :: rest => monitorLoop pid maxA delayS reconn nDisc rest
  | .parseFail :: _ => (.broke, [])
  | .recvErr _ :: _ => (.broke, [])
  | .closed :: rest =>
      match attempt_websocket_reconnect (reconn nDisc) maxA delayS with
      | (.ok _, t) =>
          let r := monitorLoop pid maxA delayS reconn (nDisc + 1) rest
          (r.1, t ++ r.2)
      | (.error e, t) => (.reconnectFailed e, t)

/-- Resolution of all of `process_job`'s external interactions: probe status
codes by attempt, per-asset upload outcomes by index, the `/prompt`
submission exchange, the initial websocket connect, the stream's events,
reconnection outcomes (`reconn d a`: attempt `a` after disconnect `d`), the
`/history` exchange, the `/view` fetches (`none`: `get_image_data` returned
`None`), and the base64 encoder applied to fetched artifact bytes
(parametrized: its computation is irrelevant to control flow). -/
structure Env where
  probe : Nat → Option Nat
  upload : Nat → UploadStep
  queue : HttpOutcome
  wsConnect : Except String Unit
  wsEvents : List WsEvent
  reconn : Nat → Nat → Except String Unit
  history : HttpOutcome
  fetch : JVal → JVal → JVal → Option String
  b64e : String → String

/-- The `if "images" in validated_input` stage of `process_job`: `none` in the
first component means fall through to submission, otherwise the early return
(`.ok` an error record, `.error` a propagating exception). Validation
guarantees the `images` value is a list; the non-list branch is semantically
unreachable from `process_job` and modelled as the exception iterating a
non-list would raise. -/
def uploadStage (env : Env) (validated : JVal) : Option (Except String JVal) × List Effect :=
  match jLookup validated "images" with
  | none => (none, [])
  | some (.arr images) =>
      match upload_images env.upload images with
      | (.error e, t) => (some (.error e), t)
      | (.ok r, t) =>
          match jLookup r "status" with
          | none => (some (.error "KeyError: 'status'"), t)
          | some st =>
              if st = .str "error" then
                match jLookup r "message" with
                | none => (some (.error "KeyError: 'message'"), t)
                | some m => (some (.ok (errObj ("Image upload failed: " ++ pyStr m))), t)
              else (none, t)
  | some _ => (some (.error "TypeError: not a list of dicts"), [])

/-- The `for image_info in node_output["images"]` loop of `process_job`:
fetch each artifact (`filename` subscripted, `subfolder`/`type` via `.get`
defaults), base64-encode and append when bytes arrive, silently skip a `None`
or falsy (empty) result, and let any subscript exception propagate. -/
def collectImages (env : Env) : List JVal → Except String (List JVal) × List Effect
  | [] => (.ok [], [])
  | .obj kvs :: rest =>
      match lookupKvs kvs "filename" with
      | none => (.error "KeyError: 'filename'", [])
      | some fn =>
          let sf := (lookupKvs kvs "subfolder").getD (.str "")
          let ty := (lookupKvs kvs "type").getD (.str "output")
          match env.fetch fn sf ty with
          | some b =>
              if b = "" then
                let r := collectImages env rest
                (r.1, .fetchImage fn :: r.2)
              else
                match collectImages env rest with
                | (.ok rs, t) =>
                    (.ok (.obj [("filename", fn), ("subfolder", sf), ("type", ty),
                                ("image", .str (env.b64e b))] :: rs),
                     .fetchImage fn :: t)
                | (.error e, t) => (.error e, .fetchImage fn :: t)
          | none =>
              let r := collectImages env rest
              (r.1, .fetchImage fn :: r.2)
  | _ :: _ => (.error "TypeError: image_info subscript", [])

/-- The `for node_id, node_output in outputs.items()` loop of `process_job`:
nodes without an `images` member are skipped; an `images` member that is not
a list raises when iterated/subscripted (empty strings and dicts iterate zero
times). -/
def collectOutputs (env : Env) : List (String × JVal) → Except String (List JVal) × List Effect
  | [] => (.ok [], [])
  | (_, nodeOut) :: rest =>
      match nodeOut with
      | .obj kvs =>
          match lookupKvs kvs "images" with
          | none => collectOutputs env rest
          | some imgsV =>
              match imgsV with
              | .arr imgs =>
                  match collectImages env imgs with
                  | (.error e, t1) => (.error e, t1)
                  | (.ok rs1, t1) =>
                      match collectOutputs env rest with
                      | (.ok rs2, t2) => (.ok (rs1 ++ rs2), t1 ++ t2)
                      | (.error e, t2) => (.error e, t1 ++ t2)
              | .str s => if s = "" then collectOutputs env rest
                          else (.error "TypeError: string indices must be integers", [])
              | .obj okvs => if okvs = [] then collectOutputs env rest
                             else (.error "TypeError: string indices must be integers", [])
              | _ => (.error "TypeError: not iterable", [])
      | .arr xs =>
          if xs.contains (.str "images") then (.error "TypeError: list indices", [])
          else collectOutputs env rest
      | .str s =>
          if charsContains "images".data s.data then (.error "TypeError: string indices", [])
          else collectOutputs env rest
      | _ => (.error "TypeError: argument is not iterable", [])

/-- The result-collection tail of `process_job` (from `get_history` to the
final success record): history errors and a missing prompt id abort with an
error record, then every artifact listed under `outputs` is fetched and the
success record is assembled. -/
def collectStage (env : Env) (pid : JVal) : Except String JVal × List Effect :=
  let h := get_history env.history
  match jContainsStr h.1 "error" with
  | none => (.error "TypeError: membership on history", h.2)
  | some true =>
      match jSubscript h.1 (.str "error") with
      | none => (.error "TypeError/KeyError: history['error']", h.2)
      | some ev => (.ok (errObj ("Failed to get execution history: " ++ pyStr ev)), h.2)
  | some false =>
      match jContainsVal h.1 pid with
      | none => (.error "TypeError: unhashable prompt_id", h.2)
      | some false => (.ok (errObj "Execution history not found"), h.2)
      | some true =>
          match jSubscript h.1 pid with
          | none => (.error "TypeError/IndexError: history[prompt_id]", h.2)
          | some entry =>
              match entry with
              | .obj ekvs =>
                  let outputs := (lookupKvs ekvs "outputs").getD (.obj [])
                  match outputs with
                  | .obj nodes =>
                      match collectOutputs env nodes with
                      | (.error e, t) => (.error e, h.2 ++ t)
                      | (.ok imgs, t) =>
                          (.ok (.obj [("status", .str "success"), ("prompt_id", pid),
                                      ("images", .arr imgs), ("outputs", outputs)]),
                           h.2 ++ t)
                  | _ => (.error "AttributeError: items", h.2)
              | _ => (.error "AttributeError: get", h.2)

/-- The body of `process_job`'s outer `try` (everything before the final
`except Exception` handler): `none` models blocking forever in the monitor
loop, `.error` an exception reaching the outer handler, `.ok` a returned
record. -/
def processBody (env : Env) (job_input : JVal) : Option (Except String JVal) × List Effect :=
  match validate_input job_input with
  | (_, some e) => (some (.ok (errObj e)), [])
  | (validated, none) =>
      let cs := check_server env.probe 500 0
      if ¬ cs.1 then (some (.ok (errObj "ComfyUI server is not available")), cs.2)
      else
        match uploadStage env validated with
        | (some r, t2) => (some r, cs.2 ++ t2)
        | (none, t2) =>
            match queue_workflow env.queue with
            | (.error e, t3) => (some (.error e), cs.2 ++ t2 ++ t3)
            | (.ok queueResult, t3) =>
                match jContainsStr queueResult "prompt_id" with
                | none => (some (.error "TypeError: membership on queue result"),
                           cs.2 ++ t2 ++ t3)
                | some false =>
                    (some (.ok (errObj "Failed to queue workflow - no prompt_id returned")),
                     cs.2 ++ t2 ++ t3)
                | some true =>
                    match jSubscript queueResult (.str "prompt_id") with
                    | none => (some (.error "TypeError: queue_result['prompt_id']"),
                               cs.2 ++ t2 ++ t3)
                    | some pid =>
                        match env.wsConnect with
                        | .error e =>
                            (some (.ok (errObj ("Failed to connect to websocket: " ++ e))),
                             cs.2 ++ t2 ++ t3 ++ [.wsConnect])
                        | .ok _ =>
                            let m := monitorLoop pid WEBSOCKET_RECONNECT_ATTEMPTS
                              WEBSOCKET_RECONNECT_DELAY_S env.reconn 0 env.wsEvents
                            let preTrace := cs.2 ++ t2 ++ t3 ++ [Effect.wsConnect] ++ m.2
                            match m.1 with
                            | .stuck => (none, preTrace)
                            | .execError d =>
                                (some (.ok (errObj ("Workflow execution failed: " ++ pyStr d))),
                                 preTrace ++ [.wsClose])
                            | .reconnectFailed e =>
                                (some (.error e), preTrace ++ [.wsClose])
                            | .completed =>
                                let c := collectStage env pid
                                (some c.1, preTrace ++ [.wsClose] ++ c.2)
                            | .broke =>
                                let c := collectStage env pid
                                (some c.1, preTrace ++ [.wsClose] ++ c.2)

/-- `ComfyUIService.process_job`: the body wrapped in the outer
`except Exception` handler, which turns any exception into the
`Job processing failed` error record. `none` models never returning. -/
def process_job (env : Env) (job_input : JVal) : Option JVal × List Effect :=
  match processBody env job_input with
  | (none, t) => (none, t)
  | (some (.ok v), t) => (some v, t)
  | (some (.error e), t) => (some (errObj ("Job processing failed: " ++ e)), t)

/-! ## `src/main.py`: the Cloud Run HTTP router -/

/-- An incoming HTTP request's routing key. -/
structure HttpReq where
  path : String
  method : String
deriving Repr, DecidableEq

/-- Python truthiness of a decoded JSON value (`if not job_input`). -/
def jvFalsy : JVal → Bool
  | .null => true
  | .bool b => !b
  | .num n => decide (n = 0)
  | .str s => decide (s = "")
  | .arr xs => xs.isEmpty
  | .obj kvs => kvs.isEmpty

/-- The `app` function of `src/main.py`: route matching in source order over
`(path, method)`, gated on `state.comfy_ready` / `state.comfy_service` for
`/predict` and `/models`, returning `(json body, status code)`.
`getJson none` models `request.get_json()` returning `None`. `pj` is the
service's `process_job` and `models` the `/object_info` passthrough. -/
def app (comfyReady : Bool) (hasService : Bool) (getJson : Option JVal)
    (pj : JVal → JVal) (models : JVal) (req : HttpReq) : JVal × Nat :=
  if req.path = "/" ∧ req.method = "GET" then
    (.obj [("status", .str "ok"), ("service", .str "comfyui-worker"),
           ("version", .str "1.0.0")], 200)
  else if req.path = "/healthz" ∧ req.method = "GET" then
    if comfyReady then (.obj [("status", .str "ok")], 200)
    else (.obj [("status", .str "initializing")], 200)
  else if req.path = "/predict" ∧ req.method = "POST" then
    if ¬ comfyReady ∨ ¬ hasService then (errObj "Service not ready", 503)
    else
      match getJson with
      | none => (errObj "No JSON data provided", 400)
      | some jobInput =>
          if jvFalsy jobInput then (errObj "No JSON data provided", 400)
          else
            let result := pj jobInput
            match jContainsStr result "error" with
            | some true => (result, 400)
            | _ => (result, 200)
  else if req.path = "/models" ∧ req.method = "GET" then
    if ¬ comfyReady ∨ ¬ hasService then (errObj "Service not ready", 503)
    else (models, 200)
  else (errObj "Not found", 404)

/-! ## `src/gcp_migration_ata/main.py`: the parallel FastAPI implementation -/

namespace Gcp

/-- The `ImageInput` pydantic model (typed fields). -/
structure ImageInput where
  name : String
  image : String
deriving Repr, DecidableEq

/-- Oracle outcome for one asset upload in the gcp `upload_images`:
`decodeFail` models `base64.b64decode` raising, `netExc` `requests.post`
raising, `resp` a response fed to `raise_for_status()`. -/
inductive UpStep where
  | decodeFail (e : String)
  | netExc (e : String)
  | resp (status : Nat)
deriving Repr

/-- The `for image in images` loop of the gcp `upload_images`: the first
per-asset failure raises `RuntimeError(f"Error uploading {name}: ...")`,
short-circuiting the remaining assets; `raise_for_status` raises on any
status ≥ 400. The data-URI comma split never raises here and the payload
bytes are abstracted by the step oracle. -/
def uploadLoop (steps : Nat → UpStep) (i : Nat) :
    List ImageInput → Except String Unit × List Effect
  | [] => (.ok (), [])
  | img :: rest =>
      match steps i with
      | .decodeFail e => (.error ("Error uploading " ++ img.name ++ ": " ++ e), [])
      | .netExc e =>
          (.error ("Error uploading " ++ img.name ++ ": " ++ e),
           [.uploadImage (.str img.name)])
      | .resp status =>
          if status < 400 then
            let r := uploadLoop steps (i + 1) rest
            (r.1, .uploadImage (.str img.name) :: r.2)
          else
            (.error ("Error uploading " ++ img.name ++ ": HTTP " ++ toString status),
             [.uploadImage (.str img.name)])

/-- The gcp `upload_images`: empty list short-circuits to success, otherwise
the loop either raises at the first failing asset or returns
`{"status": "success"}`. -/
def upload_images (steps : Nat → UpStep) (images : List ImageInput) :
    Except String JVal × List Effect :=
  if images = [] then
    (.ok (.obj [("status", .str "success"), ("message", .str "No images to upload")]), [])
  else
    match uploadLoop steps 0 images with
    | (.ok _, t) => (.ok (.obj [("status", .str "success")]), t)
    | (.error e, t) => (.error e, t)

/-- One receive on the gcp monitoring websocket: a JSON-decodable text frame,
a text frame failing `json.loads` (raises), a non-text frame (skipped by the
`isinstance(out, str)` guard), or a receive exception (raises — this
implementation has no reconnect handling). -/
inductive GWsEvent where
  | strMsg (v : JVal)
  | strBad
  | bytesMsg
  | closed (e : String)
deriving Repr

/-- Terminal outcome of the gcp monitoring loop. -/
inductive GLoopOut where
  | completed
  | exc (e : String)
  | stuck
deriving Repr, DecidableEq

/-- The gcp `while True` loop: break exactly on a decoded `executed` message
whose `data.prompt_id` equals the monitored id (with Python's short-circuit:
`data`/`prompt_id` are only subscripted when the type matches); every
exception propagates. -/
def gMonitor (pid : JVal) : List GWsEvent → GLoopOut
  | [] => .stuck
  | .bytesMsg :: rest => gMonitor pid rest
  | .strBad :: _ => .exc "json.loads"
  | .closed e :: _ => .exc e
  | .strMsg v :: rest =>
      match jLookup v "type" with
      | none => .exc "KeyError/TypeError: 'type'"
      | some ty =>
          if ty = .str "executed" then
            match jLookup v "data" with
            | none => .exc "KeyError/TypeError: 'data'"
            | some d =>
                match jLookup d "prompt_id" with
                | none => .exc "KeyError/TypeError: 'prompt_id'"
                | some q => if q = pid then .completed else gMonitor pid rest
          else gMonitor pid rest

/-- Resolution of the gcp run's external interactions, including the
configured storage sinks (`gcsBucket`/`s3Bucket`, checked in that order) and
their upload primitives (`.error`: the client library raised). `fetch`
models `get_image_data`, whose `raise_for_status()` raises on non-2xx. -/
structure GEnv where
  probe : Nat → Bool
  upload : Nat → UpStep
  wsConnect : Except String Unit
  queue : HttpOutcome
  wsEvents : List GWsEvent
  history : HttpOutcome
  fetch : JVal → JVal → JVal → Except String String
  gcsBucket : Option String
  s3Bucket : Option String
  gcsUpload : JVal → Except String String
  s3Upload : JVal → Except String String
  b64e : String → String

/-- The gcp `check_server`: `retries` probes of `_comfy_server_status`
(which never raises), true on the first reachable one. -/
def check_server (probe : Nat → Bool) : Nat → Nat → Bool × List Effect
  | 0, _ => (false, [])
  | fuel + 1, i =>
      if probe i then (true, [.probe])
      else
        let r := check_server probe fuel (i + 1)
        (r.1, .probe :: r.2)

/-- The gcp `queue_workflow`: non-200 raises
`RuntimeError(f"Failed to queue workflow: {text}")`; a network or JSON-decode
exception propagates as-is. -/
def queue_workflow (q : HttpOutcome) : Except String JVal × List Effect :=
  match q with
  | .exc e => (.error e, [.submitWorkflow])
  | .resp status text body =>
      if status = 200 then
        match body with
        | some v => (.ok v, [.submitWorkflow])
        | none => (.error "JSONDecodeError", [.submitWorkflow])
      else (.error ("Failed to queue workflow: " ++ text), [.submitWorkflow])

/-- The gcp `get_history`: `raise_for_status()` raises on status ≥ 400,
otherwise the decoded body is returned (a decode failure raises). -/
def get_history (h : HttpOutcome) : Except String JVal × List Effect :=
  match h with
  | .exc e => (.error e, [.fetchHistory])
  | .resp status _ body =>
      if status < 400 then
        match body with
        | some v => (.ok v, [.fetchHistory])
        | none => (.error "JSONDecodeError", [.fetchHistory])
      else (.error ("HTTP " ++ toString status), [.fetchHistory])

/-- Sink selection and upload for one artifact (`GCS_BUCKET_NAME` checked
before `S3_BUCKET_NAME`, inline base64 as the fallback), producing the
result-list record. -/
def relocate (env : GEnv) (fn : JVal) (bytes : String) : Except String JVal :=
  match env.gcsBucket with
  | some _ =>
      match env.gcsUpload fn with
      | .ok url => .ok (.obj [("filename", fn), ("type", .str "gcs_url"), ("data", .str url)])
      | .error e => .error e
  | none =>
      match env.s3Bucket with
      | some _ =>
          match env.s3Upload fn with
          | .ok url =>
              .ok (.obj [("filename", fn), ("type", .str "s3_url"), ("data", .str url)])
          | .error e => .error e
      | none =>
          .ok (.obj [("filename", fn), ("type", .str "base64"),
                     ("data", .str (env.b64e bytes))])

/-- The gcp artifact loop: `get_image_data` raises on a non-2xx response
(aborting the whole run), an empty byte string appends a
`Failed to retrieve image` entry to the errors list and skips, and a storage
failure raises. All three metadata subscripts are mandatory here. -/
def gCollectImages (env : GEnv) :
    List JVal → Except String (List JVal × List String) × List Effect
  | [] => (.ok ([], []), [])
  | imgV :: rest =>
      match imgV with
      | .obj kvs =>
          match lookupKvs kvs "filename" with
          | none => (.error "KeyError: 'filename'", [])
          | some fn =>
              match lookupKvs kvs "subfolder" with
              | none => (.error "KeyError: 'subfolder'", [])
              | some sf =>
                  match lookupKvs kvs "type" with
                  | none => (.error "KeyError: 'type'", [])
                  | some ty =>
                      match env.fetch fn sf ty with
                      | .error e => (.error e, [.fetchImage fn])
                      | .ok b =>
                          if b = "" then
                            match gCollectImages env rest with
                            | (.ok (imgs, errs), t) =>
                                (.ok (imgs, ("Failed to retrieve image " ++ pyStr fn) :: errs),
                                 .fetchImage fn :: t)
                            | (.error e, t) => (.error e, .fetchImage fn :: t)
                          else
                            match relocate env fn b with
                            | .error e => (.error e, [.fetchImage fn])
                            | .ok record =>
                                match gCollectImages env rest with
                                | (.ok (imgs, errs), t) =>
                                    (.ok (record :: imgs, errs), .fetchImage fn :: t)
                                | (.error e, t) => (.error e, .fetchImage fn :: t)
      | _ => (.error "TypeError: image subscript", [])

/-- The gcp node-output loop (`history["outputs"].items()`). -/
def gCollectOutputs (env : GEnv) :
    List (String × JVal) → Except String (List JVal × List String) × List Effect
  | [] => (.ok ([], []), [])
  | (_, nodeOut) :: rest =>
      match nodeOut with
      | .obj kvs =>
          match lookupKvs kvs "images" with
          | none => gCollectOutputs env rest
          | some imgsV =>
              match imgsV with
              | .arr imgs =>
                  match gCollectImages env imgs with
                  | (.error e, t1) => (.error e, t1)
                  | (.ok (rs1, es1), t1) =>
                      match gCollectOutputs env rest with
                      | (.ok (rs2, es2), t2) => (.ok (rs1 ++ rs2, es1 ++ es2), t1 ++ t2)
                      | (.error e, t2) => (.error e, t1 ++ t2)
              | .str s => if s = "" then gCollectOutputs env rest
                          else (.error "TypeError: string indices must be integers", [])
              | .obj okvs => if okvs = [] then gCollectOutputs env rest
                             else (.error "TypeError: string indices must be integers", [])
              | _ => (.error "TypeError: not iterable", [])
      | .arr xs =>
          if xs.contains (.str "images") then (.error "TypeError: list indices", [])
          else gCollectOutputs env rest
      | .str s =>
          if charsContains "images".data s.data then (.error "TypeError: string indices", [])
          else gCollectOutputs env rest
      | _ => (.error "TypeError: argument is not iterable", [])

/-- The part of `run_workflow_and_get_images` inside its `try` (from
`queue_workflow` to the assembled result): `errors` is attached only when
non-empty, and the monitor's `stuck` outcome models blocking forever. -/
def gRunInner (env : GEnv) : Option (Except String JVal) × List Effect :=
  match queue_workflow env.queue with
  | (.error e, t) => (some (.error e), t)
  | (.ok queued, t) =>
      match jSubscript queued (.str "prompt_id") with
      | none => (some (.error "TypeError/KeyError: queued_workflow['prompt_id']"), t)
      | some pid =>
          match gMonitor pid env.wsEvents with
          | .stuck => (none, t)
          | .exc e => (some (.error e), t)
          | .completed =>
              match get_history env.history with
              | (.error e, th) => (some (.error e), t ++ th)
              | (.ok historyAll, th) =>
                  match jSubscript historyAll pid with
                  | none => (some (.error "TypeError/KeyError: history[prompt_id]"), t ++ th)
                  | some history =>
                      match jLookup history "outputs" with
                      | none => (some (.error "KeyError/TypeError: 'outputs'"), t ++ th)
                      | some outputsV =>
                          match outputsV with
                          | .obj nodes =>
                              match gCollectOutputs env nodes with
                              | (.error e, tc) => (some (.error e), t ++ th ++ tc)
                              | (.ok (imgs, errs), tc) =>
                                  let base : List (String × JVal) := [("images", .arr imgs)]
                                  let result :=
                                    if errs = [] then JVal.obj base
                                    else JVal.obj (base ++
                                      [("errors", .arr (errs.map JVal.str))])
                                  (some (.ok result), t ++ th ++ tc)
                          | _ => (some (.error "AttributeError: items"), t ++ th)

/-- `run_workflow_and_get_images`: readiness probe, sequential uploads (a
failure aborts before the websocket is opened), websocket connect, then the
inner `try` whose `finally` closes the websocket on every exit. `none`
models blocking forever. -/
def run_workflow_and_get_images (env : GEnv) (images : List ImageInput) :
    Option (Except String JVal) × List Effect :=
  let cs := check_server env.probe 500 0
  if ¬ cs.1 then (some (.error "ComfyUI server is not available."), cs.2)
  else
    match (if images = [] then (.ok (.obj []), ([] : List Effect))
           else upload_images env.upload images) with
    | (.error e, tu) => (some (.error e), cs.2 ++ tu)
    | (.ok _, tu) =>
        match env.wsConnect with
        | .error e => (some (.error e), cs.2 ++ tu ++ [.wsConnect])
        | .ok _ =>
            match gRunInner env with
            | (none, ti) => (none, cs.2 ++ tu ++ [.wsConnect] ++ ti)
            | (some r, ti) =>
                (some r, cs.2 ++ tu ++ [.wsConnect] ++ ti ++ [.wsClose])

end Gcp

/-! ## Fixtures and observation helpers used by the verification statements -/

/-- Whether a returned record is a structured error (`{"error": ...}`). -/
def isErrorRec (v : JVal) : Bool := (jLookup v "error").isSome

/-- Whether a returned record is the success result. -/
def isSuccessRec (v : JVal) : Bool := decide (jLookup v "status" = some (.str "success"))

/-- The `"results"` list of an upload aggregate (empty when absent). -/
def resultsArr (r : JVal) : List JVal :=
  match jLookup r "results" with
  | some (.arr xs) => xs
  | _ => []

/-- The `"images"` list of a job result (empty when absent). -/
def imagesArr (r : JVal) : List JVal :=
  match jLookup r "images" with
  | some (.arr xs) => xs
  | _ => []

/-- The completion notification: an `executing` message with a null node and
the given prompt id. -/
def executingDone (q : JVal) : JVal :=
  .obj [("type", .str "executing"), ("data", .obj [("node", .null), ("prompt_id", q)])]

/-- An `execution_error` notification carrying the given data payload. -/
def executionErrorMsg (d : JVal) : JVal :=
  .obj [("type", .str "execution_error"), ("data", d)]

/-- The effect trail of `n` reconnection attempts: a sleep before each
connect. -/
def reconnectTrail (delayS : Nat) : Nat → List Effect
  | 0 => []
  | n + 1 => .sleep delayS :: .wsConnect :: reconnectTrail delayS n

/-- A minimal valid job request (a workflow of mapping type, no images). -/
def goodInput : JVal := .obj [("workflow", .obj [("1", .obj [])])]

/-- One artifact reference as listed in a history's node outputs. -/
def artifactRef (f : JVal) : JVal :=
  .obj [("filename", f), ("subfolder", .str ""), ("type", .str "output")]

/-- A history for prompt `p1` listing three artifacts under one node. -/
def histThree (f1 f2 f3 : JVal) : JVal :=
  .obj [("p1", .obj [("outputs",
    .obj [("9", .obj [("images", .arr [artifactRef f1, artifactRef f2, artifactRef f3])])])])]

/-- An environment where every backend interaction succeeds, the history lists
the three given artifacts, and artifact fetches are resolved by `F` on the
filename. -/
def env8gen (F : JVal → Option String) (f1 f2 f3 : JVal) : Env where
  probe := fun _ => some 200
  upload := fun _ => .resp 200 "" (some (.obj []))
  queue := .resp 200 "" (some (.obj [("prompt_id", .str "p1")]))
  wsConnect := .ok ()
  wsEvents := [.msg (executingDone (.str "p1"))]
  reconn := fun _ _ => .error "refused"
  history := .resp 200 "" (some (histThree f1 f2 f3))
  fetch := fun fn _ _ => F fn
  b64e := fun s => s

/-- The concrete three-artifact environment in which fetching `b.png` (the
second artifact) returns `None` while the others succeed. -/
def env8 : Env :=
  env8gen (fun fn => if fn = .str "b.png" then none else some "BYTES")
    (.str "a.png") (.str "b.png") (.str "c.png")

/-- The success record `process_job` assembles for `env8`. -/
def res8 : JVal :=
  .obj [("status", .str "success"), ("prompt_id", .str "p1"),
        ("images", .arr [
          .obj [("filename", .str "a.png"), ("subfolder", .str ""), ("type", .str "output"),
                ("image", .str "BYTES")],
          .obj [("filename", .str "c.png"), ("subfolder", .str ""), ("type", .str "output"),
                ("image", .str "BYTES")]]),
        ("outputs", .obj [("9", .obj [("images",
          .arr [artifactRef (.str "a.png"), artifactRef (.str "b.png"),
                artifactRef (.str "c.png")])])])]

/-- An environment whose stream yields only a generic receive error: no
completion notification is ever delivered, yet the monitoring loop breaks and
the run proceeds to collection. -/
def envBroke : Env :=
  { env8gen (fun _ => some "BYTES") (.str "a.png") (.str "b.png") (.str "c.png") with
    wsEvents := [.recvErr "boom"] }

/-- The success record `process_job` assembles for `envBroke`. -/
def resBroke : JVal :=
  .obj [("status", .str "success"), ("prompt_id", .str "p1"),
        ("images", .arr [
          .obj [("filename", .str "a.png"), ("subfolder", .str ""), ("type", .str "output"),
                ("image", .str "BYTES")],
          .obj [("filename", .str "b.png"), ("subfolder", .str ""), ("type", .str "output"),
                ("image", .str "BYTES")],
          .obj [("filename", .str "c.png"), ("subfolder", .str ""), ("type", .str "output"),
                ("image", .str "BYTES")]]),
        ("outputs", .obj [("9", .obj [("images",
          .arr [artifactRef (.str "a.png"), artifactRef (.str "b.png"),
                artifactRef (.str "c.png")])])])]

/-- The gcp environment for the three-asset upload scenario: first asset
uploads fine, second receives HTTP 500; `s2` is the (never consulted) outcome
of any later attempt. -/
def gEnvUpload (s2 : Gcp.UpStep) : Gcp.GEnv where
  probe := fun _ => true
  upload := fun i => if i = 0 then .resp 200 else if i = 1 then .resp 500 else s2
  wsConnect := .ok ()
  queue := .resp 200 "" (some (.obj [("prompt_id", .str "p1")]))
  wsEvents := [.strMsg (.obj [("type", .str "executed"),
    ("data", .obj [("prompt_id", .str "p1")])])]
  history := .resp 200 "" (some (histThree (.str "a.png") (.str "b.png") (.str "c.png")))
  fetch := fun _ _ _ => .ok "BYTES"
  gcsBucket := none
  s3Bucket := none
  gcsUpload := fun _ => .error "unused"
  s3Upload := fun _ => .error "unused"
  b64e := fun s => s

/-- The three input assets of the short-circuit scenario. -/
def threeAssets : List Gcp.ImageInput := [⟨"a", "xx"⟩, ⟨"b", "yy"⟩, ⟨"c", "zz"⟩]

/-- The effect trace of the `env8` run. -/
def tr8 : List Effect :=
  [.probe, .submitWorkflow, .wsConnect, .wsClose, .fetchHistory,
   .fetchImage (.str "a.png"), .fetchImage (.str "b.png"), .fetchImage (.str "c.png")]

/-- Three well-formed input assets for the upload-aggregation scenario. -/
def threeDictImages : List JVal :=
  [.obj [("name", .str "a"), ("image", .str "xx")],
   .obj [("name", .str "b"), ("image", .str "yy")],
   .obj [("name", .str "c"), ("image", .str "zz")]]

/-- Upload outcomes where the middle asset receives HTTP 500 and the others
succeed. -/
def uploadStepsW : Nat → UploadStep := fun i =>
  if i = 1 then .resp 500 "boom" none else .resp 200 "" (some (.obj []))

end WorkerComfy

namespace WorkerComfy

/-! ## Helper lemmas -/

/-- Every record returned by `validate_input` failure paths is reported;
`errObj` records always carry the error key. -/
theorem errObj_isError (e : String) : isErrorRec (errObj e) = true := rfl

/-- All effects of `check_server` are probes. -/
theorem check_server_trace_probe (resp : Nat → Option Nat) :
    ∀ (fuel i : Nat) (e : Effect), e ∈ (check_server resp fuel i).2 → e = .probe := by
  intro fuel
  induction fuel with
  | zero => intro i e he; simp [check_server] at he
  | succ n ih =>
      intro i e he
      unfold check_server at he
      split at he
      · simp at he; exact he
      · simp at he
        rcases he with he | he
        · exact he
        · exact ih (i + 1) e he

/-- All effects of `uploadHttp` are upload attempts for the given asset. -/
theorem uploadHttp_trace_upload (step : UploadStep) (nameV : JVal) :
    ∀ e ∈ (uploadHttp step nameV).2, e = Effect.uploadImage nameV := by
  intro e he
  unfold uploadHttp at he
  repeat' split at he
  all_goals simp at he
  all_goals exact he

/-- All effects of one upload iteration are upload attempts. -/
theorem uploadOne_trace_upload (step : UploadStep) (kvs : List (String × JVal)) :
    ∀ e ∈ (uploadOne step kvs).2, ∃ n, e = Effect.uploadImage n := by
  intro e he
  unfold uploadOne at he
  repeat' split at he
  all_goals try simp at he
  all_goals exact ⟨_, uploadHttp_trace_upload _ _ e (by assumption)⟩

/-- All effects of the upload loop are upload attempts. -/
theorem uploadAll_trace_upload (steps : Nat → UploadStep) :
    ∀ (imgs : List JVal) (i : Nat) (e : Effect), e ∈ (uploadAll steps i imgs).2 →
      ∃ n, e = Effect.uploadImage n := by
  intro imgs
  induction imgs with
  | nil => intro i e he; simp [uploadAll] at he
  | cons x rest ih =>
      intro i e he
      unfold uploadAll at he
      split at he
      · simp [uploadAll] at he
      · split at he
        · simp at he
          rcases he with he | he
          · exact uploadOne_trace_upload _ _ e he
          · exact ih (i + 1) e (by simp_all)
        · simp at he
          rcases he with he | he
          · exact uploadOne_trace_upload _ _ e he
          · exact ih (i + 1) e (by simp_all)
      · simp at he

/-- All effects of `upload_images` are upload attempts. -/
theorem upload_images_trace_upload (steps : Nat → UploadStep) (imgs : List JVal)
    (r : Except String JVal) (t : List Effect) (h : upload_images steps imgs = (r, t)) :
    ∀ e ∈ t, ∃ n, e = Effect.uploadImage n := by
  intro e he
  have ht : (upload_images steps imgs).2 = t := by rw [h]
  rw [← ht] at he
  unfold upload_images at he
  repeat' split at he
  all_goals try rw [apply_ite Prod.snd] at he
  all_goals simp at he
  all_goals exact uploadAll_trace_upload steps imgs 0 e (by simp_all)

/-- All effects of the upload stage are upload attempts. -/
theorem uploadStage_trace_upload (env : Env) (val : JVal) :
    ∀ e ∈ (uploadStage env val).2, ∃ n, e = Effect.uploadImage n := by
  intro e he
  unfold uploadStage at he
  repeat' split at he
  all_goals simp at he
  all_goals exact upload_images_trace_upload _ _ _ _ (by assumption) e he

/-- The trace of a submission is exactly one submit effect. -/
theorem queue_workflow_trace (q : HttpOutcome) (r : Except String JVal) (t : List Effect)
    (h : queue_workflow q = (r, t)) : t = [.submitWorkflow] := by
  have ht : (queue_workflow q).2 = t := by rw [h]
  rw [← ht]
  unfold queue_workflow
  repeat' split
  all_goals rfl

/-- The readiness probes never open the websocket. -/
theorem check_server_no_connect (resp : Nat → Option Nat) (fuel i : Nat) :
    Effect.wsConnect ∉ (check_server resp fuel i).2 := fun h =>
  Effect.noConfusion (check_server_trace_probe resp fuel i _ h)

/-- The upload stage never opens the websocket. -/
theorem uploadStage_no_connect (env : Env) (val : JVal)
    (r : Option (Except String JVal)) (t2 : List Effect)
    (h : uploadStage env val = (r, t2)) : Effect.wsConnect ∉ t2 := fun hm => by
  obtain ⟨n, hn⟩ := uploadStage_trace_upload env val Effect.wsConnect (by rw [h]; exact hm)
  exact Effect.noConfusion hn

/-- The submission never opens the websocket. -/
theorem queue_no_connect (q : HttpOutcome) (r : Except String JVal) (t : List Effect)
    (h : queue_workflow q = (r, t)) : Effect.wsConnect ∉ t := fun hm => by
  rw [queue_workflow_trace q r t h] at hm
  simp at hm

/-- Every record returned by the result-collection tail is a structured error
or the success record. -/
theorem collectStage_ok_shape (env : Env) (pid : JVal) (v : JVal) (t : List Effect)
    (h : collectStage env pid = (.ok v, t)) :
    isErrorRec v = true ∨ isSuccessRec v = true := by
  unfold collectStage at h
  simp only [] at h
  repeat' split at h
  all_goals simp only [Prod.mk.injEq] at h
  all_goals obtain ⟨hv, ht⟩ := h
  all_goals try exact Except.noConfusion hv
  all_goals injection hv with hv
  all_goals subst hv
  all_goals simp [isErrorRec, isSuccessRec, errObj, jLookup, lookupKvs]

/-- Every early return of the upload stage is a structured error record. -/
theorem uploadStage_ok_shape (env : Env) (val : JVal) (v : JVal) (t : List Effect)
    (h : uploadStage env val = (some (.ok v), t)) : isErrorRec v = true := by
  unfold uploadStage at h
  repeat' split at h
  all_goals simp only [Prod.mk.injEq] at h
  all_goals obtain ⟨hv, ht⟩ := h
  all_goals try exact Option.noConfusion hv
  all_goals injection hv with hv
  all_goals try exact Except.noConfusion hv
  all_goals injection hv with hv
  all_goals subst hv
  all_goals simp [isErrorRec, errObj, jLookup, lookupKvs]

/-- Every record returned from the body of `process_job` is a structured
error or the success record. -/
theorem processBody_ok_shape (env : Env) (inp : JVal) (v : JVal) (t : List Effect)
    (h : processBody env inp = (some (.ok v), t)) :
    isErrorRec v = true ∨ isSuccessRec v = true := by
  unfold processBody at h
  simp only [] at h
  repeat' split at h
  all_goals simp only [Prod.mk.injEq] at h
  all_goals obtain ⟨hv, ht⟩ := h
  all_goals try exact Option.noConfusion hv
  all_goals injection hv with hv
  all_goals try exact Except.noConfusion hv
  all_goals try injection hv with hv
  all_goals try subst hv
  all_goals solve
    | simp [isErrorRec, isSuccessRec, errObj, jLookup, lookupKvs]
    | (apply Or.inl; apply uploadStage_ok_shape <;> assumption)
    | (apply collectStage_ok_shape; rw [← hv])

/-- The body of `process_job` closes the stream before returning whenever the
websocket was successfully opened. -/
theorem processBody_closes_stream (env : Env) (inp : JVal) (res : Except String JVal)
    (t : List Effect) (h : processBody env inp = (some res, t))
    (hconn : env.wsConnect = .ok ()) (hmem : Effect.wsConnect ∈ t) :
    Effect.wsClose ∈ t := by
  unfold processBody at h
  simp only [] at h
  repeat' split at h
  all_goals simp only [Prod.mk.injEq] at h
  all_goals obtain ⟨hv, ht⟩ := h
  all_goals try exact Option.noConfusion hv
  all_goals subst ht
  all_goals try (rw [hconn] at *; exact Except.noConfusion (by assumption))
  all_goals solve
    | simp [List.mem_append]
    | simp at hmem
    | exact absurd hmem (check_server_no_connect _ _ _)
    | (exfalso
       simp only [List.mem_append] at hmem
       casesm* _ ∨ _
       all_goals rename_i hm
       all_goals first
         | exact check_server_no_connect _ _ _ hm
         | exact uploadStage_no_connect _ _ _ _ (by assumption) hm
         | exact queue_no_connect _ _ _ (by assumption) hm)

/-- Exhausting the reconnection loop from any starting attempt yields the
exhaustion error and one sleep-connect pair per attempt. -/
theorem reconnectLoop_allFail (conn : Nat → Except String Unit) (maxA delayS : Nat)
    (eLast : String) (hLast : conn maxA = .error eLast) :
    ∀ (n attempt : Nat), maxA - attempt = n → 1 ≤ attempt → attempt ≤ maxA →
    (∀ k, attempt ≤ k → k ≤ maxA → ∃ e, conn k = .error e) →
    reconnectLoop conn maxA delayS attempt =
      (.error (exhaustMsg maxA eLast), reconnectTrail delayS (maxA + 1 - attempt)) := by
  intro n
  induction n with
  | zero =>
      intro attempt hn h1 hle _
      have heq : attempt = maxA := by omega
      subst heq
      rw [reconnectLoop, dif_neg (by omega)]
      simp only [hLast, if_pos rfl]
      have h2 : attempt + 1 - attempt = 1 := by omega
      rw [h2]
      rfl
  | succ n ih =>
      intro attempt hn h1 hle hall
      have hne : attempt ≠ maxA := by omega
      obtain ⟨e, he⟩ := hall attempt le_rfl hle
      rw [reconnectLoop, dif_neg (by omega)]
      simp only [he, if_neg hne]
      rw [ih (attempt + 1) (by omega) (by omega) (by omega)
        (fun k hk1 hk2 => hall k (by omega) hk2)]
      have h2 : maxA + 1 - attempt = (maxA + 1 - (attempt + 1)) + 1 := by omega
      rw [h2]
      rfl

/-- A first successful attempt stops the reconnection loop with one
sleep-connect pair per attempt made. -/
theorem reconnectLoop_firstSuccess (conn : Nat → Except String Unit) (maxA delayS : Nat)
    (k0 : Nat) (hk0 : conn k0 = .ok ()) (hk0le : k0 ≤ maxA) :
    ∀ (n attempt : Nat), k0 - attempt = n → 1 ≤ attempt → attempt ≤ k0 →
    (∀ k, attempt ≤ k → k < k0 → ∃ e, conn k = .error e) →
    reconnectLoop conn maxA delayS attempt =
      (.ok (), reconnectTrail delayS (k0 + 1 - attempt)) := by
  intro n
  induction n with
  | zero =>
      intro attempt hn h1 hle _
      have heq : attempt = k0 := by omega
      subst heq
      rw [reconnectLoop, dif_neg (by omega)]
      simp only [hk0]
      have h2 : attempt + 1 - attempt = 1 := by omega
      rw [h2]
      rfl
  | succ n ih =>
      intro attempt hn h1 hle hall
      obtain ⟨e, he⟩ := hall attempt le_rfl (by omega)
      rw [reconnectLoop, dif_neg (by omega)]
      have hne : attempt ≠ maxA := by omega
      simp only [he, if_neg hne]
      rw [ih (attempt + 1) (by omega) (by omega) (by omega)
        (fun k hk1 hk2 => hall k (by omega) hk2)]
      have h2 : k0 + 1 - attempt = (k0 + 1 - (attempt + 1)) + 1 := by omega
      rw [h2]
      rfl

/-- The upload loop processes every well-formed asset and returns one outcome
record per asset. -/
theorem uploadAll_length (steps : Nat → UploadStep) :
    ∀ (images : List JVal) (i : Nat), (∀ img ∈ images, ∃ kvs, img = .obj kvs) →
    ∃ rs t, uploadAll steps i images = (.ok rs, t) ∧ rs.length = images.length := by
  intro images
  induction images with
  | nil => intro i _; exact ⟨[], [], rfl, rfl⟩
  | cons x rest ih =>
      intro i hwf
      obtain ⟨kvs, hx⟩ := hwf x (by simp)
      subst hx
      obtain ⟨rs, t, hrec, hlen⟩ := ih (i + 1) (fun img hm => hwf img (by simp [hm]))
      refine ⟨(uploadOne (steps i) kvs).1 :: rs, (uploadOne (steps i) kvs).2 ++ t, ?_,
        by simp [hlen]⟩
      simp [uploadAll, hrec]

end WorkerComfy

namespace WorkerComfy

/-! ## Claim theorems -/

/-- C1: for every environment and every job input, whenever `process_job`
returns, the returned record is either a structured error (`{"error": ...}`)
or the success record — the outer handler converts every modelled exception
into an error record, so no exception escapes to the caller. -/
theorem process_job_total_result (env : Env) (inp : JVal) (v : JVal) (t : List Effect)
    (h : process_job env inp = (some v, t)) :
    isErrorRec v = true ∨ isSuccessRec v = true := by
  unfold process_job at h
  split at h
  · simp at h
  · simp only [Prod.mk.injEq] at h
    obtain ⟨hv, ht⟩ := h
    injection hv with hv
    subst hv
    exact processBody_ok_shape _ _ _ _ (by assumption)
  · simp only [Prod.mk.injEq] at h
    obtain ⟨hv, ht⟩ := h
    injection hv with hv
    subst hv
    exact Or.inl rfl

/-- Witness for C1 at a concrete input: a `None` job input yields a
structured error record. -/
theorem process_job_total_result_witness :
    isErrorRec (errObj "Please provide input") = true ∨
    isSuccessRec (errObj "Please provide input") = true :=
  process_job_total_result envBroke JVal.null (errObj "Please provide input") [] rfl

/-- C2: every job input rejected by `validate_input` makes `process_job`
return that validation error with an empty effect trace — no probe, no
upload, no submission, no stream activity. -/
theorem invalid_input_is_rejected_without_network (env : Env) (inp : JVal) (e : String)
    (h : (validate_input inp).2 = some e) :
    process_job env inp = (some (errObj e), []) := by
  unfold process_job processBody
  rcases hv : validate_input inp with ⟨val, err⟩
  rw [hv] at h
  simp at h
  subst h
  simp

/-- Witness for C2: a `None` job input is rejected with no effects, for a
fully concrete environment. -/
theorem invalid_input_witness :
    process_job envBroke JVal.null = (some (errObj "Please provide input"), []) :=
  invalid_input_is_rejected_without_network envBroke JVal.null "Please provide input" rfl

/-- C3: `service.py`'s `upload_images` never raises for a sequence of
dict-shaped assets and reports one outcome record per asset in the
aggregate's `results` list — a failing asset does not prevent the remaining
assets from being processed. -/
theorem upload_reports_every_asset (steps : Nat → UploadStep) (images : List JVal)
    (hwf : ∀ img ∈ images, ∃ kvs, img = .obj kvs) :
    ∃ r t, upload_images steps images = (.ok r, t) ∧
      (resultsArr r).length = images.length := by
  by_cases hemp : images = []
  · subst hemp
    exact ⟨_, _, rfl, rfl⟩
  · obtain ⟨rs, t, hrec, hlen⟩ := uploadAll_length steps images 0 hwf
    by_cases hf : (rs.filter fun r => decide (jLookup r "status" = some (.str "error"))).length = 0
    · refine ⟨.obj [("status", .str "success"),
        ("message", .str ("Successfully uploaded " ++ toString rs.length ++ " image(s)")),
        ("results", .arr rs)], t, ?_, ?_⟩
      · simp [upload_images, hemp, hrec, hf]
      · simp [resultsArr, jLookup, lookupKvs, hlen]
    · refine ⟨.obj [("status", .str "error"),
        ("message", .str (toString (rs.filter fun r =>
          decide (jLookup r "status" = some (.str "error"))).length
          ++ " image(s) failed to upload")),
        ("results", .arr rs)], t, ?_, ?_⟩
      · simp [upload_images, hemp, hrec, hf]
      · simp [resultsArr, jLookup, lookupKvs, hlen]

/-- Witness for C3: three assets where the middle upload fails with HTTP 500
still produce three outcome records. -/
theorem upload_reports_every_asset_witness :
    ∃ r t, upload_images uploadStepsW threeDictImages = (.ok r, t) ∧
      (resultsArr r).length = 3 := by
  have h := upload_reports_every_asset uploadStepsW threeDictImages (by
    intro img hm
    simp [threeDictImages] at hm
    rcases hm with rfl | rfl | rfl
    all_goals exact ⟨_, rfl⟩)
  simpa [threeDictImages] using h

/-- C4: in the gcp implementation, with three input assets whose second
upload fails (HTTP 500), the run aborts with the upload error and only the
first two upload attempts appear in the trace — the third asset is never
attempted, whatever its oracle outcome `s2` would have been. -/
theorem gcp_upload_shortcircuit (s2 : Gcp.UpStep) :
    Gcp.run_workflow_and_get_images (gEnvUpload s2) threeAssets =
      (some (.error "Error uploading b: HTTP 500"),
       [.probe, .uploadImage (.str "a"), .uploadImage (.str "b")]) := rfl

/-- C5 (amended): the monitoring loop completes on an `executing`
notification with a null node and the monitored prompt id; the same
notification with a different prompt id is skipped and the wait continues;
but a generic receive error also ends the wait (the loop breaks and the run
proceeds to collection), so the completion notification is not the only way
the loop ends without a fatal error. -/
theorem monitor_success_signal (pid other : JVal) (maxA delayS nDisc : Nat)
    (reconn : Nat → Nat → Except String Unit) (rest : List WsEvent) (e : String) :
    monitorLoop pid maxA delayS reconn nDisc (.msg (executingDone pid) :: rest) =
      (.completed, []) ∧
    (other ≠ pid →
      monitorLoop pid maxA delayS reconn nDisc (.msg (executingDone other) :: rest) =
        monitorLoop pid maxA delayS reconn nDisc rest) ∧
    monitorLoop pid maxA delayS reconn nDisc (.recvErr e :: rest) = (.broke, []) := by
  refine ⟨?_, ?_, rfl⟩
  · simp [monitorLoop, interpretMsg, executingDone, jLookup, lookupKvs]
  · intro hne
    simp [monitorLoop, interpretMsg, executingDone, jLookup, lookupKvs, hne]

/-- Witness for C5 (amended), at concrete prompt ids and a concrete
reconnect oracle. -/
theorem monitor_success_signal_witness :
    monitorLoop (.str "p1") 5 3 (fun _ _ => .error "r") 0
      [.msg (executingDone (.str "p1"))] = (.completed, []) ∧
    monitorLoop (.str "p1") 5 3 (fun _ _ => .error "r") 0
      [.msg (executingDone (.str "p2"))] =
      monitorLoop (.str "p1") 5 3 (fun _ _ => .error "r") 0 [] ∧
    monitorLoop (.str "p1") 5 3 (fun _ _ => .error "r") 0 [.recvErr "x"] = (.broke, []) := by
  have h := monitor_success_signal (.str "p1") (.str "p2") 5 3 0
    (fun _ _ => .error "r") [] "x"
  exact ⟨h.1, h.2.1 (by decide), h.2.2⟩

/-- Counterexample to C5 as stated: a stream that only raises a generic
receive error — delivering no `executing` notification at all — still lets
the run proceed and return the full success record. -/
theorem run_succeeds_without_completion_signal :
    (process_job envBroke goodInput).1 = some resBroke ∧
    isSuccessRec resBroke = true ∧
    envBroke.wsEvents = [.recvErr "boom"] :=
  ⟨rfl, rfl, rfl⟩

/-- C6 (amended): any well-formed `execution_error` notification — whatever
prompt id its payload carries — makes the monitoring loop return the fatal
execution error; the notification is not filtered by job identifier. -/
theorem execution_error_not_filtered (pid : JVal) (maxA delayS nDisc : Nat)
    (reconn : Nat → Nat → Except String Unit) (d : JVal) (rest : List WsEvent) :
    monitorLoop pid maxA delayS reconn nDisc (.msg (executionErrorMsg d) :: rest) =
      (.execError d, []) := by
  simp [monitorLoop, interpretMsg, executionErrorMsg, jLookup, lookupKvs]

/-- Counterexample to C6 as stated: an `execution_error` notification whose
payload names a different prompt id (`p2` while `p1` is monitored) is not
ignored — it terminates the loop with the fatal execution error. -/
theorem execution_error_other_id_fails_job :
    monitorLoop (.str "p1") 5 3 (fun _ _ => .error "r") 0
      [.msg (executionErrorMsg (.obj [("prompt_id", .str "p2")]))] =
      (.execError (.obj [("prompt_id", .str "p2")]), []) ∧
    (JVal.str "p2") ≠ (JVal.str "p1") :=
  ⟨rfl, by decide⟩

/-- C7: the reconnection protocol sleeps the fixed delay before each fresh
connect, makes at most `maxA` attempts (defaults 5 attempts / 3 seconds):
if every attempt fails it returns the exhaustion error carrying the last
underlying error after exactly `maxA` sleep-connect pairs, and the first
successful attempt `k0` returns the new handle after exactly `k0`
sleep-connect pairs, with no further attempts. -/
theorem reconnect_bounded_attempts (conn : Nat → Except String Unit) (maxA delayS : Nat) :
    WEBSOCKET_RECONNECT_ATTEMPTS = 5 ∧ WEBSOCKET_RECONNECT_DELAY_S = 3 ∧
    (∀ eLast, 1 ≤ maxA → conn maxA = .error eLast →
      (∀ k, 1 ≤ k → k ≤ maxA → ∃ e, conn k = .error e) →
      attempt_websocket_reconnect conn maxA delayS =
        (.error (exhaustMsg maxA eLast), reconnectTrail delayS maxA)) ∧
    (∀ k0, 1 ≤ k0 → k0 ≤ maxA → conn k0 = .ok () →
      (∀ k, 1 ≤ k → k < k0 → ∃ e, conn k = .error e) →
      attempt_websocket_reconnect conn maxA delayS =
        (.ok (), reconnectTrail delayS k0)) := by
  refine ⟨rfl, rfl, ?_, ?_⟩
  · intro eLast h1 hLast hall
    have h := reconnectLoop_allFail conn maxA delayS eLast hLast (maxA - 1) 1 rfl le_rfl h1
      (fun k hk1 hk2 => hall k hk1 hk2)
    simpa using h
  · intro k0 h1 hle hk0 hall
    have h := reconnectLoop_firstSuccess conn maxA delayS k0 hk0 hle (k0 - 1) 1 rfl le_rfl h1
      (fun k hk1 hk2 => hall k hk1 hk2)
    simpa using h

/-- Witness for C7: exhaustion after 2 failing attempts carries the last
error; a first success at attempt 2 of 3 stops after 2 attempts. -/
theorem reconnect_bounded_attempts_witness :
    attempt_websocket_reconnect (fun _ => .error "x") 2 3 =
      (.error (exhaustMsg 2 "x"), reconnectTrail 3 2) ∧
    attempt_websocket_reconnect (fun k => if k = 2 then .ok () else .error "y") 3 3 =
      (.ok (), reconnectTrail 3 2) := by
  refine ⟨?_, ?_⟩
  · exact (reconnect_bounded_attempts (fun _ => .error "x") 2 3).2.2.1 "x" (by decide) rfl
      (fun k _ _ => ⟨"x", rfl⟩)
  · exact (reconnect_bounded_attempts (fun k => if k = 2 then .ok () else .error "y") 3 3).2.2.2
      2 (by decide) (by decide) rfl
      (fun k hk1 hk2 => ⟨"y", by have hk : k = 1 := by omega
                                 subst hk
                                 rfl⟩)

/-- C8 (amended): with a history listing three artifacts, when fetching the
second returns `None` while the others yield non-empty bytes, the run
returns the success record listing the two fetched artifacts; the miss is
skipped silently — the result carries no errors list at all. -/
theorem fetch_miss_skipped_silently (F : JVal → Option String) (f1 f2 f3 : JVal)
    (b1 b3 : String)
    (h1 : F f1 = some b1) (h2 : F f2 = none) (h3 : F f3 = some b3)
    (hb1 : b1 ≠ "") (hb3 : b3 ≠ "") :
    (process_job (env8gen F f1 f2 f3) goodInput).1 =
      some (.obj [("status", .str "success"), ("prompt_id", .str "p1"),
        ("images", .arr [
          .obj [("filename", f1), ("subfolder", .str ""), ("type", .str "output"),
                ("image", .str b1)],
          .obj [("filename", f3), ("subfolder", .str ""), ("type", .str "output"),
                ("image", .str b3)]]),
        ("outputs", .obj [("9", .obj [("images",
          .arr [artifactRef f1, artifactRef f2, artifactRef f3])])])]) := by
  unfold process_job processBody env8gen
  simp [validate_input, goodInput, lookupKvs, check_server, uploadStage, jLookup,
    queue_workflow, jContainsStr, jSubscript, monitorLoop, interpretMsg, executingDone,
    collectStage, get_history, jContainsVal, collectOutputs, collectImages, histThree,
    artifactRef, h1, h2, h3, hb1, hb3]

/-- Witness for C8 (amended) at the concrete three-artifact environment. -/
theorem fetch_miss_skipped_silently_witness :
    (process_job env8 goodInput).1 = some res8 ∧ (imagesArr res8).length = 2 := by
  have h := fetch_miss_skipped_silently
    (fun fn => if fn = .str "b.png" then none else some "BYTES")
    (.str "a.png") (.str "b.png") (.str "c.png") "BYTES" "BYTES"
    rfl rfl rfl (by decide) (by decide)
  exact ⟨h, rfl⟩

/-- Counterexample to C8 as stated: in the same three-artifact scenario the
claim's `errors` sequence of length 1 does not exist — the success record
has no `errors` member at all. -/
theorem missing_artifact_not_recorded :
    (process_job env8 goodInput).1 = some res8 ∧
    isSuccessRec res8 = true ∧
    (imagesArr res8).length = 2 ∧
    jLookup res8 "errors" = none :=
  ⟨rfl, rfl, rfl, rfl⟩

/-- C9: whenever `process_job` returns after successfully opening the
monitoring stream (the connect succeeded and a connect effect is in the
trace), a close effect is in the trace as well — every exit path from the
monitoring phase onward closes the stream handle. -/
theorem process_job_closes_stream (env : Env) (inp : JVal) (r : JVal) (t : List Effect)
    (h : process_job env inp = (some r, t)) (hconn : env.wsConnect = .ok ())
    (hmem : Effect.wsConnect ∈ t) : Effect.wsClose ∈ t := by
  unfold process_job at h
  split at h
  · simp at h
  · simp only [Prod.mk.injEq] at h
    obtain ⟨hv, ht⟩ := h
    subst ht
    exact processBody_closes_stream env inp _ _ (by assumption) hconn hmem
  · simp only [Prod.mk.injEq] at h
    obtain ⟨hv, ht⟩ := h
    subst ht
    exact processBody_closes_stream env inp _ _ (by assumption) hconn hmem

/-- Witness for C9: in the concrete `env8` run the stream is opened and the
close effect is present in the trace. -/
theorem process_job_closes_stream_witness : Effect.wsClose ∈ tr8 :=
  process_job_closes_stream env8 goodInput res8 tr8 rfl rfl (by decide)

/-- C10: a GET on `/healthz` returns 200 in both readiness states — body
`ok` when ready and `initializing` when not — while `/predict` and `/models`
return 503 when the backend is not ready. -/
theorem healthz_always_200 (ready hasSvc : Bool) (gj : Option JVal)
    (pj : JVal → JVal) (models : JVal) :
    (app ready hasSvc gj pj models ⟨"/healthz", "GET"⟩).2 = 200 ∧
    (ready = true →
      app ready hasSvc gj pj models ⟨"/healthz", "GET"⟩ =
        (.obj [("status", .str "ok")], 200)) ∧
    (ready = false →
      app ready hasSvc gj pj models ⟨"/healthz", "GET"⟩ =
        (.obj [("status", .str "initializing")], 200)) ∧
    (ready = false →
      (app ready hasSvc gj pj models ⟨"/predict", "POST"⟩).2 = 503 ∧
      (app ready hasSvc gj pj models ⟨"/models", "GET"⟩).2 = 503) := by
  cases ready <;> simp [app]

/-- Witness for C10 at concrete router state. -/
theorem healthz_always_200_witness :
    app true true none (fun j => j) JVal.null ⟨"/healthz", "GET"⟩ =
      (.obj [("status", .str "ok")], 200) ∧
    app false true none (fun j => j) JVal.null ⟨"/healthz", "GET"⟩ =
      (.obj [("status", .str "initializing")], 200) ∧
    (app false true none (fun j => j) JVal.null ⟨"/predict", "POST"⟩).2 = 503 ∧
    (app false true none (fun j => j) JVal.null ⟨"/models", "GET"⟩).2 = 503 := by
  refine ⟨(healthz_always_200 true true none (fun j => j) JVal.null).2.1 rfl,
    (healthz_always_200 false true none (fun j => j) JVal.null).2.2.1 rfl,
    ((healthz_always_200 false true none (fun j => j) JVal.null).2.2.2 rfl).1,
    ((healthz_always_200 false true none (fun j => j) JVal.null).2.2.2 rfl).2⟩

end WorkerComfy
